import Mathlib

/-!
Verification of the stream-recorder supervision core (`record-gui.py`).

The Python source is shallowly embedded below. Pure string processing
(filename derivation, output-line classification, percent extraction) becomes
Lean functions on `String`/`List Char`; the stateful pieces (the recorder
registry of `MainWindow`, the file-growth watcher loop of
`StreamRecorder._check_file_save`, the termination procedure of
`StreamRecorder.stop`) become explicit state-passing functions whose inputs
are the observations the code would make (sampled file sizes, process
behaviour) and whose outputs are the emitted Qt signals, modelled as lists of
typed events.
-/

/-! ## String utilities (kernel-evaluable stand-ins for Python `str` methods) -/

/-- Boolean test that the first list is an initial segment of the second. -/
def leadsWith : List Char → List Char → Bool
  | [], _ => true
  | _ :: _, [] => false
  | p :: ps, c :: cs => p == c && leadsWith ps cs

/-- Boolean substring containment on character lists; embeds Python's
`pat in s`. -/
def containsTok : List Char → List Char → Bool
  | [], pat => pat.isEmpty
  | c :: rest, pat => leadsWith pat (c :: rest) || containsTok rest pat

/-- Substring containment on strings; embeds Python's `pat in s`. -/
def strContains (s pat : String) : Bool :=
  containsTok s.data pat.data

/-- Characterwise ASCII lowercasing; embeds Python's `str.lower()` for the
ASCII tokens the source searches for. -/
def toLowerStr (s : String) : String :=
  ⟨s.data.map Char.toLower⟩

/-- Whitespace test used by `strTrim`; the characters Python's `str.strip()`
removes from the lines the source handles. -/
def isWsChar (c : Char) : Bool :=
  c == ' ' || c == '\t' || c == '\n' || c == '\r'

/-- Trim on character lists: drop whitespace from both ends. -/
def trimCh (l : List Char) : List Char :=
  ((l.dropWhile isWsChar).reverse.dropWhile isWsChar).reverse

/-- Embeds Python's `str.strip()`. -/
def strTrim (s : String) : String :=
  ⟨trimCh s.data⟩

/-! ## Filename derivation (`StreamRecorder.get_metadata`, lines 59–69)

The source builds `f"[{author}] {timestamp} {title}.ts"` and then runs
`re.sub(r'[<>:"/\\|?*]', '_', filename)`.  Since the regex is a single
character class, the substitution is a characterwise map. -/

/-- Membership test for the reserved character class of the source regex
`[<>:"/\\|?*]`. -/
def isReserved (c : Char) : Bool :=
  c == '<' || c == '>' || c == ':' || c == '"' || c == '/' ||
  c == '\\' || c == '|' || c == '?' || c == '*'

/-- Characterwise action of `re.sub(r'[<>:"/\\|?*]', '_', ·)`. -/
def sanChar (c : Char) : Char :=
  if isReserved c then '_' else c

/-- Embeds `re.sub(r'[<>:"/\\|?*]', '_', filename)` from
`StreamRecorder.get_metadata`. -/
def sanitize_filename (s : String) : String :=
  ⟨s.data.map sanChar⟩

/-- Embeds the filename derivation of `StreamRecorder.get_metadata`:
`f"[{author}] {timestamp} {title}.ts"` followed by the reserved-character
substitution.  `author`/`title` are `none` when the corresponding key is
absent from the metadata (the source then uses the `dict.get` defaults
`'unknown'`/`'untitled'`); `timestamp` is the `strftime("%Y-%m-%d %H:%M")`
text, passed explicitly. -/
def deriveFilename (author title : Option String) (timestamp : String) : String :=
  sanitize_filename
    ("[" ++ author.getD "unknown" ++ "] " ++ timestamp ++ " " ++
      title.getD "untitled" ++ ".ts")

/-- Spec-side reserved set, written as the spec lists it:
`< > : " / \ | ? *`. -/
def specReserved : List Char :=
  ['<', '>', ':', '"', '/', '\\', '|', '?', '*']

/-- Spec-side sanitization, following the spec's words: every character from
the reserved set occurring in the name is replaced with an underscore. -/
def specSanitize (s : String) : String :=
  ⟨s.data.map (fun c => if c ∈ specReserved then '_' else c)⟩

/-- Spec-side filename derivation, following the spec's words: format
`[author] YYYY-MM-DD HH:MM title.ts` with placeholder fallbacks, with the
reserved-character replacement applied to the name. -/
def specDeriveFilename (author title : Option String) (timestamp : String) : String :=
  specSanitize
    ("[" ++ author.getD "unknown" ++ "] " ++ timestamp ++ " " ++
      title.getD "untitled" ++ ".ts")

/-! ## Output-path joining (`os.path.join(self.output_dir, filename)`)

POSIX `os.path.join` semantics for two components: an absolute second
component discards the first; otherwise the parts are glued with a single
separator unless the first already ends in one (or is empty). -/

/-- Test whether a string begins with the path separator. -/
def startsWithSlash (s : String) : Bool :=
  match s.data with
  | [] => false
  | c :: _ => c == '/'

/-- Test whether a string ends with the path separator. -/
def endsWithSlash (s : String) : Bool :=
  match s.data.reverse with
  | [] => false
  | c :: _ => c == '/'

/-- Embeds `os.path.join(dir, name)` (POSIX semantics, two arguments). -/
def pathJoin (dir name : String) : String :=
  if startsWithSlash name then name
  else if dir == "" || endsWithSlash dir then dir ++ name
  else dir ++ "/" ++ name

/-! ## Helper lemmas about sanitization -/

theorem isReserved_iff (c : Char) : isReserved c = true ↔ c ∈ specReserved := by
  simp [isReserved, specReserved]
  tauto

theorem sanChar_eq_spec (c : Char) :
    sanChar c = (if c ∈ specReserved then '_' else c) := by
  by_cases h : c ∈ specReserved
  · have h' : isReserved c = true := (isReserved_iff c).mpr h
    simp [sanChar, h', h]
  · have h' : isReserved c = false := by
      cases hh : isReserved c
      · rfl
      · exact absurd ((isReserved_iff c).mp hh) h
    simp [sanChar, h', h]

theorem sanitize_eq_spec (s : String) : sanitize_filename s = specSanitize s := by
  unfold sanitize_filename specSanitize
  exact congrArg String.mk (List.map_congr_left fun c _ => sanChar_eq_spec c)

theorem sanChar_idem (c : Char) : sanChar (sanChar c) = sanChar c := by
  cases hr : isReserved c with
  | true => simp [sanChar, hr]
  | false => simp [sanChar, hr]

theorem sanChar_ne_slash (c : Char) : sanChar c ≠ '/' ∧ sanChar c ≠ '\\' := by
  cases hr : isReserved c with
  | true => simp [sanChar, hr]
  | false =>
    refine ⟨fun h => ?_, fun h => ?_⟩ <;>
      · simp [sanChar, hr] at h
        subst h
        simp [isReserved] at hr

theorem slash_not_mem_sanitized (s : String) :
    '/' ∉ (sanitize_filename s).data ∧ '\\' ∉ (sanitize_filename s).data := by
  constructor <;>
    · intro hmem
      simp only [sanitize_filename, List.mem_map] at hmem
      obtain ⟨c, _, hc⟩ := hmem
      first
        | exact (sanChar_ne_slash c).1 hc
        | exact (sanChar_ne_slash c).2 hc

/-! ## The recorder registry (`MainWindow`, lines 273–274, 318–374)

`MainWindow.__init__` sets `self.recorders = {}` (url → StreamRecorder).
`start_recording` reads the stripped URL text, warns and returns on empty
input, resolves the save directory (returning without side effects if the
directory dialog is cancelled), then unconditionally constructs a fresh
`StreamRecorder`, stores it with `self.recorders[url] = recorder`
(overwriting any previous binding for the same URL), and starts it.
`stop_recording` reads the stripped URL text and, only when
`url in self.recorders`, calls `.stop()` on the stored recorder; in neither
branch is the dictionary modified.

Distinct `StreamRecorder` objects are modelled by distinct numeric
identities drawn from a counter; the dictionary is modelled as an
association list with Python-dict lookup/update semantics. -/

/-- Python-dict lookup: value bound to the key, if any. -/
def dictGet : List (String × Nat) → String → Option Nat
  | [], _ => none
  | (k, v) :: rest, key => if k == key then some v else dictGet rest key

/-- Python-dict update `d[key] = v`: replace the binding in place, or append
a new one. -/
def dictSet : List (String × Nat) → String → Nat → List (String × Nat)
  | [], key, v => [(key, v)]
  | (k, w) :: rest, key, v =>
    if k == key then (key, v) :: rest else (k, w) :: dictSet rest key v

/-- Registry slice of `MainWindow`: the `recorders` dictionary plus a counter
supplying the identity of the next `StreamRecorder` object constructed. -/
structure GuiState where
  recorders : List (String × Nat)
  nextId : Nat
  deriving DecidableEq

/-- Synchronous outcome of `MainWindow.start_recording`.
`alreadySessionError` is the outcome the spec prescribes for a duplicate
URL; the source never produces it. -/
inductive StartOutcome where
  | emptyUrlWarning
  | noSavePath
  | registered (id : Nat)
  | alreadySessionError
  deriving DecidableEq

/-- Embeds `MainWindow.start_recording`.  `urlInput` is the raw text of the
URL field (the source strips it); `savePath` is the save directory after the
text-field/dialog resolution, `none` when the dialog was cancelled.  GUI
side effects (message boxes, table rows, signal wiring) carry no registry
state and are elided. -/
def start_recording (st : GuiState) (urlInput : String) (savePath : Option String) :
    GuiState × StartOutcome :=
  if strTrim urlInput == "" then (st, .emptyUrlWarning)
  else
    match savePath with
    | none => (st, .noSavePath)
    | some _ =>
      ({ recorders := dictSet st.recorders (strTrim urlInput) st.nextId,
         nextId := st.nextId + 1 },
       .registered st.nextId)

/-- Synchronous outcome of `MainWindow.stop_recording`.
`notFoundError` is the outcome the spec prescribes for an unknown URL; the
source never produces it. -/
inductive StopOutcome where
  | stopped
  | silentNoop
  | notFoundError
  deriving DecidableEq

/-- Embeds `MainWindow.stop_recording`: when the stripped URL is a key of
`recorders`, `.stop()` is invoked on the stored recorder (outcome
`stopped`); otherwise nothing at all happens.  The dictionary is returned
unchanged in both branches, exactly as in the source (no `del`). -/
def stop_recording (st : GuiState) (urlInput : String) : GuiState × StopOutcome :=
  if (dictGet st.recorders (strTrim urlInput)).isSome then (st, .stopped)
  else (st, .silentNoop)

/-! ## Process termination (`StreamRecorder.stop`, lines 127–150)

The source runs, under the guard `if self.process and self.is_running`:
`process.terminate()`, then `process.wait(timeout=5)`; on
`subprocess.TimeoutExpired` it runs `process.kill()` and an unconditional
`process.wait()`.  The child's reaction is modelled by `ProcBehavior`:
`gracefulExitTime` is the delay (in seconds) after `terminate()` at which
the child would exit on its own (`none` when it ignores the signal), and
`killExitTime` the (always finite) delay after `kill()` at which the
SIGKILLed child is reaped. -/

/-- Grace period of `process.wait(timeout=5)` in seconds. -/
def gracePeriod : Nat := 5

/-- Behaviour of the child process under termination signals. -/
structure ProcBehavior where
  gracefulExitTime : Option Nat
  killExitTime : Nat
  deriving DecidableEq

/-- Observable trace of one `StreamRecorder.stop` run: which signals were
sent, how long the call took, and whether the child was still alive when the
call returned. -/
structure StopTrace where
  sentTerminate : Bool
  sentKill : Bool
  elapsed : Nat
  processAliveAfter : Bool
  deriving DecidableEq

/-- Embeds `StreamRecorder.stop`: `none` when the guard
`if self.process and self.is_running` fails (no signal is sent), otherwise
the trace of the terminate/wait/kill/wait sequence. -/
def recorder_stop (hasProcess isRunning : Bool) (b : ProcBehavior) : Option StopTrace :=
  if hasProcess && isRunning then
    some (match b.gracefulExitTime with
      | some t =>
        if t ≤ gracePeriod then
          { sentTerminate := true, sentKill := false, elapsed := t,
            processAliveAfter := false }
        else
          { sentTerminate := true, sentKill := true,
            elapsed := gracePeriod + b.killExitTime, processAliveAfter := false }
      | none =>
        { sentTerminate := true, sentKill := true,
          elapsed := gracePeriod + b.killExitTime, processAliveAfter := false })
  else none

/-! ## File-growth watcher (`StreamRecorder._check_file_save`, lines 172–214)

The thread sleeps two seconds, then performs a one-shot existence check: if
the output file is absent it emits two warnings and returns.  Otherwise it
enters a poll loop with `last_size = 0`, `no_growth_count = 0`,
`initial_check = True`; each iteration re-checks existence (two warnings and
`break` on deletion), reads the size, runs the initial-check block, then
compares with `last_size`: on equality the counter is incremented and, at
five, two stall warnings are emitted and the loop `break`s; on any
difference the counter is reset to zero.  Finally `last_size` is updated,
`size_changed` is emitted and the thread sleeps one second.

Each poll's observation is an `Option Nat`: `none` when the file is missing,
`some n` when it exists with size `n`.  The loop is driven by a finite
observation window (the list of polls); `is_running` is taken as true
throughout, since the claims concern the watcher's own logic. -/

/-- Events emitted by the watcher; each constructor names one
`status_changed`/`log_message` emission site of `_check_file_save`. -/
inductive WEvent where
  /-- `status_changed(url, "경고: 파일이 생성되지 않았습니다.")` (pre-loop). -/
  | statusNotCreated
  /-- `log_message("경고: 녹화 파일이 생성되지 않았습니다.")` (pre-loop). -/
  | logNotCreated
  /-- `status_changed(url, "경고: 파일이 삭제되었습니다.")`. -/
  | statusDeleted
  /-- `log_message("경고: 녹화 파일이 삭제되었습니다.")`. -/
  | logDeleted
  /-- `log_message(f"녹화 파일 생성됨: {output_path}")`. -/
  | logCreated
  /-- `log_message(f"초기 파일 크기: ...")` carrying the sampled size. -/
  | logInitialSize (bytes : Nat)
  /-- `log_message("경고: 파일이 생성되었지만 크기가 0입니다.")`. -/
  | logZeroSize
  /-- `status_changed(url, "경고: 파일이 더 이상 저장되지 않습니다.")`. -/
  | statusStalled
  /-- `log_message("경고: 5초 동안 파일 크기가 증가하지 않았습니다.")`. -/
  | logStalled
  /-- `size_changed.emit(url, current_size)`. -/
  | sizeChanged (bytes : Nat)
  deriving DecidableEq

/-- How a watcher run ended. -/
inductive WatchResult where
  /-- Pre-loop existence check failed: the thread returned before polling. -/
  | notCreated
  /-- The file vanished after the watch began: warning then `break`. -/
  | deleted
  /-- The no-growth counter reached the threshold: warning then `break`. -/
  | stalled
  /-- The observation window was exhausted with the loop still live. -/
  | windowEnded
  deriving DecidableEq

/-- Mutable locals of the poll loop. -/
structure WState where
  last : Nat
  countNoGrowth : Nat
  initialCheck : Bool
  deriving DecidableEq

/-- Result of one loop iteration: either the loop `break`s with a result, or
it continues with an updated state. -/
inductive StepOut where
  | halt (evs : List WEvent) (r : WatchResult)
  | next (evs : List WEvent) (s : WState)
  deriving DecidableEq

/-- Stall threshold of `if no_growth_count >= 5`. -/
def staleThreshold : Nat := 5

/-- Initial-check block of the loop body (`if initial_check: ...`). -/
def initEvents (initialCheck : Bool) (cur : Nat) : List WEvent :=
  if initialCheck then
    if 0 < cur then [.logCreated, .logInitialSize cur] else [.logZeroSize]
  else []

/-- Embeds one iteration of the `while self.is_running` loop of
`_check_file_save`, driven by the poll's observation. -/
def watchStep (s : WState) (obs : Option Nat) : StepOut :=
  match obs with
  | none => .halt [.statusDeleted, .logDeleted] .deleted
  | some cur =>
    let evs0 := initEvents s.initialCheck cur
    let initial' := if s.initialCheck && decide (0 < cur) then false else s.initialCheck
    if cur = s.last then
      if staleThreshold ≤ s.countNoGrowth + 1 then
        .halt (evs0 ++ [.statusStalled, .logStalled]) .stalled
      else
        .next (evs0 ++ [.sizeChanged cur]) ⟨cur, s.countNoGrowth + 1, initial'⟩
    else
      .next (evs0 ++ [.sizeChanged cur]) ⟨cur, 0, initial'⟩

/-- Embeds the poll loop of `_check_file_save` over a finite observation
window, collecting all emitted events and the way the run ended. -/
def watchLoop (s : WState) : List (Option Nat) → List WEvent × WatchResult
  | [] => ([], .windowEnded)
  | obs :: rest =>
    match watchStep s obs with
    | .halt evs r => (evs, r)
    | .next evs s' =>
      let (evs', r) := watchLoop s' rest
      (evs ++ evs', r)

/-- Loop locals as initialised by the source:
`last_size = 0`, `no_growth_count = 0`, `initial_check = True`. -/
def initialWState : WState := ⟨0, 0, true⟩

/-- Embeds `_check_file_save` as a whole: `preExists` is the outcome of the
one-shot existence check performed after the initial two-second sleep, and
`polls` the subsequent observation window. -/
def check_file_save (preExists : Bool) (polls : List (Option Nat)) :
    List WEvent × WatchResult :=
  if preExists then watchLoop initialWState polls
  else ([.statusNotCreated, .logNotCreated], .notCreated)

/-- Number of stall-warning `status_changed` emissions in an event list. -/
def stallWarnCount : List WEvent → Nat
  | [] => 0
  | e :: rest => (if e = WEvent.statusStalled then 1 else 0) + stallWarnCount rest

/-! ## Output-line classification (`StreamRecorder._monitor_output`,
lines 152–170, and `MainWindow.update_progress`, lines 380–387)

`_monitor_output` classifies each line: `if "error" in line.lower()` emits
`status_changed(url, f"오류: {line.strip()}")`; `elif "stream" in
line.lower()` emits `status_changed(url, line.strip())`; independently,
`if "progress" in line.lower()` emits `progress_changed(url, line.strip())`.
The GUI slot `update_progress` then re-checks the token, extracts the
percentage with `re.search(r'(\d+)%')` and `int(...)`, and swallows every
failure with a bare `except: pass`. -/

/-- Qt signals emitted by `_monitor_output` for one line, carrying the text
payload the source passes. -/
inductive MSignal where
  | statusChanged (text : String)
  | progressChanged (text : String)
  deriving DecidableEq

/-- Embeds the per-line classification of `_monitor_output`, in emission
order. -/
def monitor_classify (line : String) : List MSignal :=
  let lw := toLowerStr line
  (if strContains lw "error" then [.statusChanged ("오류: " ++ strTrim line)]
   else if strContains lw "stream" then [.statusChanged (strTrim line)]
   else [])
  ++ (if strContains lw "progress" then [.progressChanged (strTrim line)] else [])

/-- Numeric value of a digit run, as Python's `int` reads it. -/
def digitsVal (l : List Char) : Nat :=
  l.foldl (fun n c => n * 10 + (c.toNat - 48)) 0

/-- Attempt to match `\d+%` anchored at the start of the list: a nonempty
maximal digit run immediately followed by a percent sign. -/
def matchDigitsPercent (l : List Char) : Option Nat :=
  match l.takeWhile Char.isDigit, l.dropWhile Char.isDigit with
  | [], _ => none
  | ds, '%' :: _ => some (digitsVal ds)
  | _ :: _, _ => none

/-- Leftmost match of `(\d+)%`, scanning positions left to right; embeds
`re.search(r'(\d+)%', s)` followed by `int` on the captured digits. -/
def scanPercent : List Char → Option Nat
  | [] => none
  | c :: rest =>
    match matchDigitsPercent (c :: rest) with
    | some n => some n
    | none => scanPercent rest

/-- Percent extraction on strings. -/
def extractPercent (s : String) : Option Nat :=
  scanPercent s.data

/-- Embeds `MainWindow.update_progress`: the percent handed to
`progressBar.setValue`, or `none` when the token test fails or the
extraction raises (the bare `except` swallows the exception). -/
def update_progress (progressText : String) : Option Nat :=
  if strContains (toLowerStr progressText) "progress" then extractPercent progressText
  else none

/-! ## Helper lemmas about the watcher -/

theorem stallWarnCount_append (a b : List WEvent) :
    stallWarnCount (a ++ b) = stallWarnCount a + stallWarnCount b := by
  induction a with
  | nil => simp [stallWarnCount]
  | cons e rest ih => simp [stallWarnCount, ih]; omega

theorem stallWarnCount_initEvents (b : Bool) (cur : Nat) :
    stallWarnCount (initEvents b cur) = 0 := by
  cases b
  · simp [initEvents, stallWarnCount]
  · by_cases h : 0 < cur <;> simp [initEvents, h, stallWarnCount]

theorem watchStep_halt_count (s : WState) (obs : Option Nat) (evs : List WEvent)
    (r : WatchResult) (h : watchStep s obs = StepOut.halt evs r) :
    stallWarnCount evs = if r = WatchResult.stalled then 1 else 0 := by
  cases obs with
  | none =>
    simp only [watchStep, StepOut.halt.injEq] at h
    obtain ⟨he, hr⟩ := h
    subst he; subst hr
    simp [stallWarnCount]
  | some cur =>
    simp only [watchStep] at h
    by_cases hc : cur = s.last
    · simp only [if_pos hc] at h
      by_cases ht : staleThreshold ≤ s.countNoGrowth + 1
      · simp only [if_pos ht, StepOut.halt.injEq] at h
        obtain ⟨he, hr⟩ := h
        subst he; subst hr
        simp [stallWarnCount_append, stallWarnCount_initEvents, stallWarnCount]
      · simp only [if_neg ht] at h
        exact absurd h (by simp)
    · simp only [if_neg hc] at h
      exact absurd h (by simp)

theorem watchStep_next_count (s : WState) (obs : Option Nat) (evs : List WEvent)
    (s' : WState) (h : watchStep s obs = StepOut.next evs s') :
    stallWarnCount evs = 0 := by
  cases obs with
  | none =>
    simp only [watchStep] at h
    exact absurd h (by simp)
  | some cur =>
    simp only [watchStep] at h
    by_cases hc : cur = s.last
    · simp only [if_pos hc] at h
      by_cases ht : staleThreshold ≤ s.countNoGrowth + 1
      · simp only [if_pos ht] at h
        exact absurd h (by simp)
      · simp only [if_neg ht, StepOut.next.injEq] at h
        obtain ⟨he, _⟩ := h
        subst he
        simp [stallWarnCount_append, stallWarnCount_initEvents, stallWarnCount]
    · simp only [if_neg hc, StepOut.next.injEq] at h
      obtain ⟨he, _⟩ := h
      subst he
      simp [stallWarnCount_append, stallWarnCount_initEvents, stallWarnCount]

/-! ## Claims C4, C5, C6 — file-growth watcher -/

/-- C4, counterexample.  With the file present and sizes
`7, 7, 7, 7, 7, 7` followed by resumed growth to `100`, the watcher emits
exactly one stall warning and then terminates: the result is `stalled`, the
post-resumption sample is never observed (no `sizeChanged 100`), and the
counter does not keep incrementing on later polls — contradicting the claim
that the watcher keeps running (counter incrementing, duplicates suppressed)
until growth resumes. -/
theorem c4_counterexample :
    check_file_save true
        [some 7, some 7, some 7, some 7, some 7, some 7, some 100]
      = ([WEvent.logCreated, WEvent.logInitialSize 7, WEvent.sizeChanged 7,
          WEvent.sizeChanged 7, WEvent.sizeChanged 7, WEvent.sizeChanged 7,
          WEvent.sizeChanged 7, WEvent.statusStalled, WEvent.logStalled],
         WatchResult.stalled)
  ∧ WEvent.sizeChanged 100 ∉
      (check_file_save true
        [some 7, some 7, some 7, some 7, some 7, some 7, some 100]).1
  ∧ stallWarnCount
      (check_file_save true
        [some 7, some 7, some 7, some 7, some 7, some 7, some 100]).1 = 1 := by
  decide

/-- C4 (amended): in every watcher run, at most one stall warning is
emitted — exactly one precisely when the run ends `stalled` — because upon
reaching `staleThreshold` consecutive equal samples the loop emits the
warning once and immediately terminates (it does not keep polling, so there
are no subsequent equal samples and growth resumption is never observed). -/
theorem c4_stall_warning_once (s : WState) (polls : List (Option Nat)) :
    stallWarnCount (watchLoop s polls).1 =
      (if (watchLoop s polls).2 = WatchResult.stalled then 1 else 0) := by
  induction polls generalizing s with
  | nil => simp [watchLoop, stallWarnCount]
  | cons obs rest ih =>
    cases hstep : watchStep s obs with
    | halt evs r =>
      simp only [watchLoop, hstep]
      exact watchStep_halt_count s obs evs r hstep
    | next evs s' =>
      have hrec := ih s'
      rcases hl : watchLoop s' rest with ⟨evs', r⟩
      rw [hl] at hrec
      simp only [watchLoop, hstep, hl]
      rw [stallWarnCount_append, watchStep_next_count s obs evs s' hstep]
      simpa using hrec

/-- C5, counterexample.  When the file is absent at the initial check, the
watcher reports the absence and returns at once: even though the very next
observation shows the file with size 5, no poll happens and no `sizeChanged`
is emitted — the run ends `notCreated` instead of continuing.  Had the file
existed at the initial check, the same window would have been polled to the
end (`windowEnded`). -/
theorem c5_counterexample :
    check_file_save false [some 5]
      = ([WEvent.statusNotCreated, WEvent.logNotCreated], WatchResult.notCreated)
  ∧ WEvent.sizeChanged 5 ∉ (check_file_save false [some 5]).1
  ∧ (check_file_save true [some 5]).2 = WatchResult.windowEnded := by
  decide

/-- C5 (amended): if the output file does not exist at the watcher's initial
check (two seconds after start), its absence is reported exactly once — one
warning status event and one warning log event — and the watcher returns
immediately; the polling loop is never entered, regardless of what later
observations would have shown. -/
theorem c5_absent_file_returns (polls : List (Option Nat)) :
    check_file_save false polls
      = ([WEvent.statusNotCreated, WEvent.logNotCreated], WatchResult.notCreated) := by
  rfl

/-- C6, counterexample.  With last observed size 10 and counter 1, a sampled
size of 5 — a strict decrease, not an increase — resets the counter to 0,
contradicting the claim that the counter is non-decreasing on every poll
step whose sampled size does not increase. -/
theorem c6_counterexample :
    watchStep ⟨10, 1, false⟩ (some 5)
      = StepOut.next [WEvent.sizeChanged 5] ⟨5, 0, false⟩
  ∧ 5 < 10 ∧ (0 : Nat) < 1 := by
  decide

/-- C6 (amended): across every continuing poll step, the no-growth counter
increments by one when the sampled size equals the last observed size, and
resets to 0 whenever the sampled size differs — whether it increased or
decreased.  (It is therefore non-decreasing only along runs of equal
samples, not on decreases.) -/
theorem c6_counter_reset (s : WState) (cur : Nat) (evs : List WEvent) (s' : WState)
    (h : watchStep s (some cur) = StepOut.next evs s') :
    (cur = s.last → s'.countNoGrowth = s.countNoGrowth + 1)
  ∧ (cur ≠ s.last → s'.countNoGrowth = 0) := by
  simp only [watchStep] at h
  by_cases hc : cur = s.last
  · simp only [if_pos hc] at h
    by_cases ht : staleThreshold ≤ s.countNoGrowth + 1
    · simp only [if_pos ht] at h
      exact absurd h (by simp)
    · simp only [if_neg ht, StepOut.next.injEq] at h
      obtain ⟨_, hs⟩ := h
      subst hs
      exact ⟨fun _ => rfl, fun hn => absurd hc hn⟩
  · simp only [if_neg hc, StepOut.next.injEq] at h
    obtain ⟨_, hs⟩ := h
    subst hs
    exact ⟨fun he => absurd he hc, fun _ => rfl⟩

/-- Witness for the amended C6 theorem at the concrete decreasing step
`last = 10, counter = 1, sampled = 5`. -/
theorem c6_counter_reset_witness : WState.countNoGrowth ⟨5, 0, false⟩ = 0 :=
  (c6_counter_reset ⟨10, 1, false⟩ 5 [WEvent.sizeChanged 5] ⟨5, 0, false⟩
    (by decide)).2 (by decide)

/-! ## Claims C1, C2 — registry start/stop -/

theorem dictGet_dictSet (reg : List (String × Nat)) (k : String) (v : Nat) :
    dictGet (dictSet reg k v) k = some v := by
  induction reg with
  | nil => simp [dictGet, dictSet]
  | cons p rest ih =>
    obtain ⟨q, w⟩ := p
    by_cases h : (q == k) = true
    · simp [dictGet, dictSet, h]
    · simp [dictGet, dictSet, h, ih]

/-- C1, counterexample.  Starting the same URL `"u"` twice in a row (first
session still live, nothing terminal happened in between): the second call
does not fail with `AlreadySessionError` — it registers a second, distinct
recorder (identity 1) and overwrites the registry binding, orphaning the
first recorder (identity 0). -/
theorem c1_counterexample :
    (start_recording (start_recording ⟨[], 0⟩ "u" (some "/rec")).1 "u" (some "/rec")).2
      = StartOutcome.registered 1
  ∧ (start_recording (start_recording ⟨[], 0⟩ "u" (some "/rec")).1 "u" (some "/rec")).2
      ≠ StartOutcome.alreadySessionError
  ∧ (start_recording (start_recording ⟨[], 0⟩ "u" (some "/rec")).1 "u" (some "/rec")).1.recorders
      = [("u", 1)] := by
  decide

/-- C1 (amended): for every registry state and nonempty URL (with a save
directory available), a `start` call never fails — in particular a second
call with a URL that already has a live session does not return
`AlreadySessionError`; it always constructs a fresh recorder, registers it
under the URL (overwriting any existing binding, which orphans the previous
session's recorder), and bumps the object counter. -/
theorem c1_start_overwrites (st : GuiState) (url dir : String)
    (h : (strTrim url == "") = false) :
    (start_recording st url (some dir)).2 = StartOutcome.registered st.nextId
  ∧ dictGet (start_recording st url (some dir)).1.recorders (strTrim url)
      = some st.nextId
  ∧ (start_recording st url (some dir)).1.nextId = st.nextId + 1 := by
  refine ⟨?_, ?_, ?_⟩ <;> simp [start_recording, h, dictGet_dictSet]

/-- Witness for the amended C1 theorem: a second `start` on URL `"u"` while
recorder 0 is still registered for it yields a new registration. -/
theorem c1_start_overwrites_witness :
    (start_recording ⟨[("u", 0)], 1⟩ "u" (some "/rec")).2 = StartOutcome.registered 1
  ∧ (start_recording ⟨[("u", 0)], 1⟩ "u" (some "/rec")).1.nextId = 2 := by
  have h := c1_start_overwrites ⟨[("u", 0)], 1⟩ "u" "/rec" (by decide)
  exact ⟨h.1, h.2.2⟩

/-- C2, counterexample.  Stopping a URL with no registered session does not
fail with `NotFoundError`: the call is a silent no-op.  (The registry is
indeed left unchanged, but the claimed error never occurs.) -/
theorem c2_counterexample :
    stop_recording ⟨[], 0⟩ "nosuch" = (⟨[], 0⟩, StopOutcome.silentNoop)
  ∧ StopOutcome.silentNoop ≠ StopOutcome.notFoundError := by
  decide

/-- C2 (amended): for every URL with no registered session, `stop` silently
does nothing — no error of any kind is raised — and the registry is left
unchanged. -/
theorem c2_stop_silent_noop (st : GuiState) (url : String)
    (h : dictGet st.recorders (strTrim url) = none) :
    stop_recording st url = (st, StopOutcome.silentNoop) := by
  simp [stop_recording, h]

/-- Witness for the amended C2 theorem: stopping `"u"` while only `"v"` is
registered is a silent no-op leaving the registry intact. -/
theorem c2_stop_silent_noop_witness :
    stop_recording ⟨[("v", 0)], 1⟩ "u" = (⟨[("v", 0)], 1⟩, StopOutcome.silentNoop) :=
  c2_stop_silent_noop ⟨[("v", 0)], 1⟩ "u" (by decide)

/-! ## Claim C3 — graceful-then-forceful termination -/

/-- C3: for every running session (process handle present, `is_running`
set) and every child behaviour, `StreamRecorder.stop` sends the graceful
terminate signal, returns only with the child no longer alive, takes at
most the 5-second grace period plus the kill-reap delay, and escalates to
the forceful kill whenever the child ignores the graceful signal. -/
theorem c3_stop_terminates (b : ProcBehavior) (tr : StopTrace)
    (h : recorder_stop true true b = some tr) :
    tr.sentTerminate = true
  ∧ tr.processAliveAfter = false
  ∧ tr.elapsed ≤ gracePeriod + b.killExitTime
  ∧ (b.gracefulExitTime = none → tr.sentKill = true) := by
  unfold recorder_stop at h
  simp only [Bool.and_self, if_true, Option.some.injEq] at h
  cases hg : b.gracefulExitTime with
  | none =>
    rw [hg] at h
    subst h
    exact ⟨rfl, rfl, Nat.le_refl _, fun _ => rfl⟩
  | some t =>
    rw [hg] at h
    by_cases ht : t ≤ gracePeriod
    · simp only [if_pos ht] at h
      subst h
      exact ⟨rfl, rfl, Nat.le_trans ht (Nat.le_add_right _ _),
        fun hn => by simp at hn⟩
    · simp only [if_neg ht] at h
      subst h
      exact ⟨rfl, rfl, Nat.le_refl _, fun hn => by simp at hn⟩

/-- Witness for the C3 theorem: a child that ignores the graceful signal and
dies instantly on kill is confirmed dead when `stop` returns, after the kill
escalation. -/
theorem c3_stop_terminates_witness :
    StopTrace.processAliveAfter ⟨true, true, 5, false⟩ = false
  ∧ StopTrace.sentKill ⟨true, true, 5, false⟩ = true := by
  have h := c3_stop_terminates ⟨none, 0⟩ ⟨true, true, 5, false⟩ (by decide)
  exact ⟨h.2.1, h.2.2.2 rfl⟩

/-! ## Claim C7 — output-line classification -/

/-- C7, counterexample.  The line `"stream error"` contains the token
`stream`, yet no plain `StatusChanged` event is produced for it: the
`error` branch of the `if`/`elif` chain wins and only the error-prefixed
event is emitted. -/
theorem c7_counterexample :
    strContains (toLowerStr "stream error") "stream" = true
  ∧ monitor_classify "stream error"
      = [MSignal.statusChanged ("오류: stream error")]
  ∧ MSignal.statusChanged "stream error" ∉ monitor_classify "stream error" := by
  decide

/-- C7 (amended): a line containing `error` (case-insensitively) yields the
error-prefixed `StatusChanged`; a line containing `stream` but not `error`
yields the plain `StatusChanged`; in both cases a line containing
`progress` additionally yields a `ProgressChanged` carrying the raw
(stripped) line, whose percent is extracted downstream by matching an
integer immediately followed by `%`; when that extraction fails the failure
is swallowed — the progress-bar update simply does not happen and no error
is raised. -/
theorem c7_line_classification (line : String) :
    (strContains (toLowerStr line) "error" = true →
      monitor_classify line
        = [MSignal.statusChanged ("오류: " ++ strTrim line)]
          ++ (if strContains (toLowerStr line) "progress" then
                [MSignal.progressChanged (strTrim line)]
              else []))
  ∧ (strContains (toLowerStr line) "error" = false →
     strContains (toLowerStr line) "stream" = true →
      monitor_classify line
        = [MSignal.statusChanged (strTrim line)]
          ++ (if strContains (toLowerStr line) "progress" then
                [MSignal.progressChanged (strTrim line)]
              else []))
  ∧ (∀ t, extractPercent t = none → update_progress t = none)
  ∧ (∀ t n, update_progress t = some n → extractPercent t = some n) := by
  refine ⟨fun he => ?_, fun he hs => ?_, fun t hext => ?_, fun t n hup => ?_⟩
  · simp [monitor_classify, he]
  · simp [monitor_classify, he, hs]
  · simp [update_progress, hext]
  · by_cases hc : strContains (toLowerStr t) "progress" = true
    · simpa [update_progress, hc] using hup
    · simp [update_progress, hc] at hup

/-- Witness for the amended C7 theorem: a plain stream line yields exactly
the plain `StatusChanged` event. -/
theorem c7_line_classification_witness :
    monitor_classify "Live stream started"
      = [MSignal.statusChanged "Live stream started"] := by
  have h := (c7_line_classification "Live stream started").2.1 (by decide) (by decide)
  exact h.trans (by decide)

/-! ## Claims C8, C9, C10 — filename derivation -/

/-- C8: the derived output filename is exactly the spec's
`[author] YYYY-MM-DD HH:MM title.ts` template with every character of the
reserved set `< > : " / \ | ? *` occurring in it replaced by `_`, and a
missing author or title falls back to the placeholders
`unknown` / `untitled`. -/
theorem c8_filename_format (author title : Option String) (ts : String) :
    deriveFilename author title ts = specDeriveFilename author title ts
  ∧ deriveFilename none none ts
      = deriveFilename (some "unknown") (some "untitled") ts := by
  constructor
  · unfold deriveFilename specDeriveFilename
    exact sanitize_eq_spec _
  · rfl

/-- C9, counterexample.  For author `A/B`, title `T:1` and timestamp
`2024-01-01 10:00`, the derived filename is
`[A_B] 2024-01-01 10_00 T_1.ts`: the colon inside the time is in the
reserved set too and is replaced, so the claimed value
`[A_B] 2024-01-01 10:00 T_1.ts` is not produced. -/
theorem c9_counterexample :
    deriveFilename (some "A/B") (some "T:1") "2024-01-01 10:00"
      = "[A_B] 2024-01-01 10_00 T_1.ts"
  ∧ deriveFilename (some "A/B") (some "T:1") "2024-01-01 10:00"
      ≠ "[A_B] 2024-01-01 10:00 T_1.ts" := by
  decide

/-- C9 (amended): the filename sanitization is idempotent — re-sanitizing a
sanitized name returns it unchanged — and for author `A/B`, title `T:1`,
time `2024-01-01 10:00` the derived filename is
`[A_B] 2024-01-01 10_00 T_1.ts` (the time's colon is replaced as well). -/
theorem c9_sanitize_idempotent :
    (∀ s, sanitize_filename (sanitize_filename s) = sanitize_filename s)
  ∧ deriveFilename (some "A/B") (some "T:1") "2024-01-01 10:00"
      = "[A_B] 2024-01-01 10_00 T_1.ts" := by
  constructor
  · intro s
    show String.mk ((s.data.map sanChar).map sanChar) = String.mk (s.data.map sanChar)
    rw [List.map_map]
    exact congrArg String.mk (List.map_congr_left fun c _ => sanChar_idem c)
  · decide

/-- C10: for every author, title and timestamp — including adversarial
strings — the derived filename contains neither `/` nor `\`, and joining a
well-formed output directory with it appends exactly one new path
component, so the output path stays directly inside the chosen directory. -/
theorem c10_no_path_escape (author title : Option String) (ts dir : String)
    (h1 : endsWithSlash dir = false) (h2 : dir ≠ "") :
    ('/' ∉ (deriveFilename author title ts).data
      ∧ '\\' ∉ (deriveFilename author title ts).data)
  ∧ pathJoin dir (deriveFilename author title ts)
      = dir ++ "/" ++ deriveFilename author title ts := by
  have hsep : '/' ∉ (deriveFilename author title ts).data
      ∧ '\\' ∉ (deriveFilename author title ts).data :=
    slash_not_mem_sanitized _
  refine ⟨hsep, ?_⟩
  have hstart : startsWithSlash (deriveFilename author title ts) = false := by
    unfold startsWithSlash
    cases hd : (deriveFilename author title ts).data with
    | nil => rfl
    | cons c rest =>
      have hc : c ≠ '/' := by
        intro hcc
        subst hcc
        exact hsep.1 (by rw [hd]; exact List.mem_cons_self _ _)
      simpa using hc
  have hne : (dir == "") = false := beq_eq_false_iff_ne.mpr h2
  simp [pathJoin, hstart, hne, h1]

/-- Witness for the C10 theorem at a concrete directory and metadata. -/
theorem c10_no_path_escape_witness :
    pathJoin "/rec" (deriveFilename (some "a") (some "t") "2024-01-01 10:00")
      = "/rec" ++ "/" ++ deriveFilename (some "a") (some "t") "2024-01-01 10:00" :=
  (c10_no_path_escape (some "a") (some "t") "2024-01-01 10:00" "/rec"
    (by decide) (by decide)).2
